import Mathlib

/-!
Verification of the synchronization and dispatch-interception core of the
`hyperapp-custom-element` library (`src/custom-element.js`, `src/effects.js`,
`src/actions.js`).

The development shallowly embeds the JavaScript code: JS values become an
inductive `JSVal` (arrays via the mutual list type `JList`); JS objects become
association lists in which the first binding for a key is authoritative; the
DOM attribute table becomes a map `String → Option String`; functions become
opaque tokens carrying the two observable markers used by the code
(`bind`-ing and the `$isWrapped` expando property); code that can throw
returns `Except JsError _`.
-/

namespace HyperappCE

/-- Identity of a JS function's underlying code: either a function that
already existed (`native`, tagged by an arbitrary id), or one produced by
`new Function('event', body)` when an inline handler string is compiled. -/
inductive FnCode where
  | native (id : Nat)
  | compiled (body : String)
deriving DecidableEq, Repr

/-- A JS function value, as far as this code can observe it: its code, whether
it is a `bound` copy (produced by `Function.prototype.bind`), and whether it
carries the truthy `$isWrapped` expando property used by middleware to mark
already-wrapped actions.  `bind` produces a fresh function object without the
expando property. -/
structure Fn where
  code : FnCode
  isBound : Bool := false
  isWrapped : Bool := false
deriving DecidableEq, Repr

mutual

/-- JS values as observed by the library: `undefined`, `null`, booleans,
numbers, strings, functions and arrays.  Plain objects appear in the code
only as states/payloads and are modelled separately as `JSObj`. -/
inductive JSVal where
  | undefined
  | null
  | bool (b : Bool)
  | num (n : Int)
  | str (s : String)
  | fn (f : Fn)
  | arr (xs : JList)
deriving DecidableEq, Repr

/-- The contents of a JS array value. -/
inductive JList where
  | nil
  | cons (hd : JSVal) (tl : JList)
deriving DecidableEq, Repr

end

/-- The result of JS `typeof v === 'function'`. -/
def JSVal.isFn : JSVal → Bool
  | .fn _ => true
  | _ => false

/-- The result of JS `typeof v === 'boolean'`. -/
def JSVal.isBool : JSVal → Bool
  | .bool _ => true
  | _ => false

/-- The result of JS `v === undefined`. -/
def JSVal.isUndefined : JSVal → Bool
  | .undefined => true
  | _ => false

/-- JS truthiness of a value (`undefined`, `null`, `false`, `0`, and the
empty string are falsy; everything else in the model is truthy). -/
def jsTruthy : JSVal → Bool
  | .undefined => false
  | .null => false
  | .bool b => b
  | .num n => n != 0
  | .str s => s != ""
  | .fn _ => true
  | .arr _ => true

mutual

/-- JS string coercion `String(v)` for the values of the model. -/
def jsToString : JSVal → String
  | .undefined => "undefined"
  | .null => "null"
  | .bool true => "true"
  | .bool false => "false"
  | .num n => toString n
  | .str s => s
  | .fn _ => "function"
  | .arr xs => jsListToString xs

/-- JS string coercion of an array joins the coerced elements with commas. -/
def jsListToString : JList → String
  | .nil => ""
  | .cons x .nil => jsToString x
  | .cons x xs => jsToString x ++ "," ++ jsListToString xs

end

/-- A JS plain object: an association list of fields.  The first binding for
a key is the authoritative one, so the object-spread override
`\x7b...state, ...props\x7d` is modelled by prepending the overriding
bindings. -/
abbrev JSObj : Type := List (String × JSVal)

/-- Property read `obj[k]` restricted to present keys (`none` when the key is
absent). -/
def lookupObj (o : JSObj) (k : String) : Option JSVal :=
  (List.find? (fun kv => kv.1 = k) o).map (fun kv => kv.2)

/-- Property read `obj[k]` with the JS result for an absent key
(`undefined`). -/
def jsGet (o : JSObj) (k : String) : JSVal :=
  (lookupObj o k).getD .undefined

/-- The keys a `for...in` loop visits: each key once, in order of first
occurrence. -/
def objKeys (o : JSObj) : List String :=
  (List.map (fun kv : String × JSVal => kv.1) o).eraseDups

/-- Truthiness of an optional string field of a descriptor (`undefined` and
the empty string are falsy). -/
def jsTruthyStr : Option String → Bool
  | none => false
  | some s => s != ""

/-- The JS short-circuit `a || b` on two optional string fields. -/
def jsOrStrs (a b : Option String) : Option String :=
  if jsTruthyStr a then a else b

/-- The errors this code can throw; every throwing site in the model is a
`TypeError` (calling or dereferencing `undefined`). -/
inductive JsError where
  | typeError
deriving DecidableEq, Repr

/-- A setter action held by a descriptor: the default `PatchState` merge
action, the `SetOnEventHandler` action produced by `generateOnEventSetter`
(closing over the three descriptor fields it destructures), or a
user-supplied action (uninterpreted). -/
inductive SetterF where
  | patchState
  | onEvent (propName attrName eventType : Option String)
  | userFn (f : Fn)
deriving DecidableEq, Repr

/-- An exposed-field descriptor (`exposedConfig` entry): optional attribute
name, property name, setter action, getter, and event type.  `none` models an
absent (JS `undefined`) field. -/
structure Config where
  attrName : Option String := none
  propName : Option String := none
  setter : Option SetterF := none
  getter : Option Fn := none
  eventType : Option String := none
deriving DecidableEq, Repr

/-- The JS `toLowerCase()` folding of an attribute name (character-wise
lowercasing, evaluable in the kernel). -/
def jsToLowerCase (s : String) : String :=
  String.mk (List.map Char.toLower s.data)

/-- A JS `Map` with string keys: `set` replaces the value of an existing key
in place, otherwise appends; `get` finds the binding. -/
abbrev MapS (α : Type) : Type := List (String × α)

/-- JS `Map.prototype.get`. -/
def mapGet {α} (m : MapS α) (k : String) : Option α :=
  (List.find? (fun kv => kv.1 = k) m).map (fun kv => kv.2)

/-- JS `Map.prototype.set`: replaces in place or appends. -/
def mapSet {α} (m : MapS α) (k : String) (v : α) : MapS α :=
  if (List.any m (fun kv => kv.1 = k)) then
    List.map (fun kv => if kv.1 = k then (k, v) else kv) m
  else
    m ++ [(k, v)]

/-- The default-setter assignment performed for each descriptor inside
`generateMaps`:
`if (typeof cfg.setter !== 'function') cfg.setter = cfg.eventType ?
generateOnEventSetter(cfg) : PatchState;`. -/
def assignSetter (cfg : Config) : Config :=
  if cfg.setter.isSome then cfg
  else
    { cfg with
      setter := some (if jsTruthyStr cfg.eventType then
        SetterF.onEvent cfg.propName cfg.attrName cfg.eventType
      else SetterF.patchState) }

/-- One iteration of the `for (const cfg of exposedConfig)` loop of
`generateMaps`: enter the descriptor into the property map if `cfg.propName`
is truthy, into the attribute map (under the lowercased name) if
`cfg.attrName` is truthy, and assign a default setter if none was supplied.
The maps hold the descriptor with its assigned setter because the source
mutates the one shared descriptor object. -/
def generateMapsStep (acc : MapS Config × MapS Config) (cfg0 : Config) :
    MapS Config × MapS Config :=
  let cfg := assignSetter cfg0
  let props := if jsTruthyStr cfg.propName then
      mapSet acc.1 (cfg.propName.getD "") cfg
    else acc.1
  let attrs := if jsTruthyStr cfg.attrName then
      mapSet acc.2 (jsToLowerCase (cfg.attrName.getD "")) cfg
    else acc.2
  (props, attrs)

/-- The `generateMaps` IIFE of `generateClass`: builds the
`exposedProps` and `exposedAttrs` lookup tables from the ordered descriptor
list.  It performs no validation and cannot fail. -/
def generateMaps (exposedConfig : List Config) : MapS Config × MapS Config :=
  List.foldl generateMapsStep ([], []) exposedConfig

/-- The element's attribute table, as `setAttribute` / `removeAttribute` see
it: the attribute's current string value, or `none` when absent. -/
abbrev AttrMap : Type := String → Option String

/-- DOM `setAttribute` (the value argument is already a string here; callers
coerce with `jsToString`). -/
def setAttr (m : AttrMap) (a v : String) : AttrMap :=
  fun x => if x = a then some v else m x

/-- DOM `removeAttribute`. -/
def removeAttr (m : AttrMap) (a : String) : AttrMap :=
  fun x => if x = a then none else m x

/-- The `value === undefined || value === null || value === ''` test of
`syncAttribute`. -/
def isEmptyish : JSVal → Bool
  | .undefined => true
  | .null => true
  | .str "" => true
  | _ => false

/-- The `syncAttribute(cfg, value)` method: the outward reflection of one
field value onto the element's attribute table.  Event-handler descriptors
return immediately; boolean `true` sets the attribute with empty content,
boolean `false` removes it; `undefined`, `null` and `''` remove it; any
other value is set after string coercion. -/
def syncAttribute (cfg : Config) (value : JSVal) (m : AttrMap) : AttrMap :=
  if jsTruthyStr cfg.eventType then m
  else
    let attrName := cfg.attrName.getD "undefined"
    match value with
    | .bool b => if b then setAttr m attrName "" else removeAttr m attrName
    | v => if isEmptyish v then removeAttr m attrName
           else setAttr m attrName (jsToString v)

/-- The body of the `for (const name in this._state)` loop of
`syncAttributes`: a key that is an exposed property with a truthy `attrName`
is reflected through `syncAttribute`; every other key is skipped. -/
def syncAttributesStep (exposedProps : MapS Config) (state : JSObj)
    (acc : AttrMap) (name : String) : AttrMap :=
  match mapGet exposedProps name with
  | some cfg =>
      if jsTruthyStr cfg.attrName then syncAttribute cfg (jsGet state name) acc
      else acc
  | none => acc

/-- The `syncAttributes()` method: iterates the top-level keys of the current
state snapshot and reflects each key that is an exposed property with a
truthy `attrName`. -/
def syncAttributes (exposedProps : MapS Config) (state : JSObj) (m : AttrMap) :
    AttrMap :=
  List.foldl (syncAttributesStep exposedProps state) m (objKeys state)

/-- The `PatchState` default action: `return \x7b ...state, ...props \x7d`.
In the first-binding-wins object encoding the overriding `props` bindings are
prepended. -/
def PatchState (state props : JSObj) : JSObj :=
  props ++ state

/-- The props object handed to `setOnEventListenerEffect`:
`\x7b eventType, oldVal: oldHandler, newVal: handler \x7d`. -/
structure ListenerEffectProps where
  eventType : Option String
  oldVal : JSVal
  newVal : JSVal
deriving DecidableEq, Repr

/-- The `new Function('event', handler)` wrapping of a non-function inline
handler value (the body is the handler coerced to a string). -/
def compileHandler (v : JSVal) : JSVal :=
  .fn { code := .compiled (jsToString v) }

/-- The `SetOnEventHandler` action returned by `generateOnEventSetter(cfg)`
for a descriptor carrying an `eventType`.  It resolves the field name
(`propName || attrName`), wraps a truthy non-function payload value in a
compiled function, records the previous handler from the state, stores the
new handler into the state, and returns the new state together with a
`setOnEventListenerEffect` effect tuple. -/
def SetOnEventHandler (propName attrName eventType : Option String)
    (state props : JSObj) : JSObj × ListenerEffectProps :=
  let name := (jsOrStrs propName attrName).getD "undefined"
  let handler0 := jsGet props name
  let handler :=
    if jsTruthy handler0 && !handler0.isFn then compileHandler handler0
    else handler0
  let oldHandler := jsGet state name
  let newState : JSObj := (name, handler) :: state
  (newState, { eventType := eventType, oldVal := oldHandler, newVal := handler })

/-- The element's registered event listeners: pairs of event type (after JS
string coercion of the type argument) and listener value.
`addEventListener` ignores a duplicate registration of the same pair;
`removeEventListener` removes the matching registration. -/
abbrev Listeners : Type := List (String × JSVal)

/-- DOM `addEventListener(type, listener)`. -/
def addEventListener (ls : Listeners) (ty : String) (v : JSVal) : Listeners :=
  if (ty, v) ∈ ls then ls else ls ++ [(ty, v)]

/-- DOM `removeEventListener(type, listener)` (at most one registration of
the pair can exist, and it is removed). -/
def removeEventListener (ls : Listeners) (ty : String) (v : JSVal) :
    Listeners :=
  List.filter (fun e => e ≠ (ty, v)) ls

/-- The `setOnEventListenerEffectRunner` effect (`src/effects.js`): removes
`oldVal` as a listener when it is not `null`, then adds `newVal` as a
listener when it is not `null`. -/
def setOnEventListenerEffectRunner (props : ListenerEffectProps)
    (ls : Listeners) : Listeners :=
  let ty := props.eventType.getD "undefined"
  let ls1 := if props.oldVal ≠ .null then removeEventListener ls ty props.oldVal
    else ls
  if props.newVal ≠ .null then addEventListener ls1 ty props.newVal else ls1

/-- One complete host-initiated write of value `v` to an event-handler
property: `setProperty` dispatches `SetOnEventHandler` with payload
`\x7b [propName]: v \x7d`; the interceptor captures the returned state;
the effect then runs against the element's listener table. -/
def writeOnEventHandler (propName attrName eventType : Option String)
    (state : JSObj) (ls : Listeners) (v : JSVal) : JSObj × Listeners :=
  let name := (jsOrStrs propName attrName).getD "undefined"
  let r := SetOnEventHandler propName attrName eventType state [(name, v)]
  (r.1, setOnEventListenerEffectRunner r.2 ls)

/-- The `bindToThis` closure of `wrapDispatch`: `action.bind(this)` yields a
fresh bound function, and the truthy `$isWrapped` marker of the unbound
function, when present, is copied onto the bound one. -/
def bindToThis (f : Fn) : Fn :=
  { code := f.code, isBound := true, isWrapped := f.isWrapped }

/-- Rebinds the head of one effect tuple
(`tuple[0] = bindToThis(tuple[0]);`): anything that is not an array whose
first element is a function makes `bindToThis` throw a `TypeError`. -/
def bindEffectTuple : JSVal → Except JsError JSVal
  | .arr (.cons (.fn f) rest) => .ok (.arr (.cons (.fn (bindToThis f)) rest))
  | _ => .error .typeError

/-- Rebinds every effect tuple of a signature-3 argument
(the `for (let i = 1; ...)` loop of `newDispatch`). -/
def bindEffectTuples : JList → Except JsError JList
  | .nil => .ok .nil
  | .cons t rest => do
      let t' ← bindEffectTuple t
      let rest' ← bindEffectTuples rest
      .ok (.cons t' rest')

/-- The shape classification and rebinding performed by `newDispatch` before
it forwards: returns the rewritten `action` argument and the value of the
local variable `newState` (which starts out `undefined` and is only set for
signatures 3 and 4). -/
def classifyAndBind : JSVal → Except JsError (JSVal × JSVal)
  | .fn f => .ok (.fn (bindToThis f), .undefined)
  | .arr (.cons (.fn f) rest) => .ok (.arr (.cons (.fn (bindToThis f)) rest), .undefined)
  | .arr .nil => .ok (.arr .nil, .undefined)
  | .arr (.cons h rest) => do
      let rest' ← bindEffectTuples rest
      .ok (.arr (.cons h rest'), h)
  | v => .ok (v, v)

/-- The externally observable steps `newDispatch` takes, in order: the
snapshot assignment `this._state = newState`, the forwarding call
`dispatch(action, props)`, and the trailing `this.syncAttributes()`. -/
inductive DEvent where
  | setSnapshot (v : JSVal)
  | forward (action props : JSVal)
  | syncAttrs
deriving DecidableEq, Repr

/-- The wrapped dispatch function `newDispatch` returned by `wrapDispatch`,
as the ordered trace of its observable steps: classify and rebind, capture
the new state when it is not `undefined`, forward, and sync the attributes
when a new state was captured. -/
def newDispatch (action props : JSVal) : Except JsError (List DEvent) := do
  let (action', newState) ← classifyAndBind action
  .ok ((if newState.isUndefined then [] else [DEvent.setSnapshot newState])
    ++ [DEvent.forward action' props]
    ++ (if newState.isUndefined then [] else [DEvent.syncAttrs]))

/-- The boolean-attribute detection of `attributeChangedCallback` over the
`(oldVal, newVal)` pair (`none` models `null`): removed to empty, empty to
removed, name-as-value to removed, or removed to name-as-value. -/
def isBoolAttrChange (attrName : String) (oldVal newVal : Option String) :
    Bool :=
  (newVal = some "" && oldVal = none) ||
  (newVal = none && oldVal = some "") ||
  (newVal = none && oldVal = some attrName) ||
  (newVal = some attrName && oldVal = none)

/-- A browser-supplied attribute value as the JS value it already is: the
raw string, or `null` for an absent attribute. -/
def rawAttrVal : Option String → JSVal
  | some s => .str s
  | none => .null

/-- The payload value `attributeChangedCallback` sends: the raw value
converted to a boolean (`!(newVal === null)`) when the pair indicates a
boolean attribute, otherwise the raw string or `null` passed through. -/
def accValue (attrName : String) (oldVal newVal : Option String) : JSVal :=
  if isBoolAttrChange attrName oldVal newVal then .bool (newVal ≠ none)
  else rawAttrVal newVal

/-- The outcome of one `attributeChangedCallback(attrName, oldVal, newVal)`
invocation: an early return, a thrown `TypeError` (descriptor lookup
failed), or a dispatch of the descriptor's setter with the one-field
payload. -/
inductive ACCResult where
  | noop
  | thrown
  | dispatched (setter : Option SetterF) (fieldName : String) (value : JSVal)
deriving DecidableEq, Repr

/-- The `attributeChangedCallback` method: no-op when `oldVal === newVal`;
otherwise looks the descriptor up by the lowercased attribute name, resolves
the field name as `cfg.propName || cfg.attrName`, applies boolean-attribute
detection to the new value, and dispatches the descriptor's setter with
payload `\x7b [propName]: newVal \x7d`. -/
def attributeChangedCallback (exposedAttrs : MapS Config) (attrName : String)
    (oldVal newVal : Option String) : ACCResult :=
  if oldVal = newVal then .noop
  else
    match mapGet exposedAttrs (jsToLowerCase attrName) with
    | none => .thrown
    | some cfg =>
        .dispatched cfg.setter ((jsOrStrs cfg.propName cfg.attrName).getD "undefined")
          (accValue attrName oldVal newVal)

/-- A live component instance, for the lifecycle claims: the state snapshot
`_state`, the saved native dispatch reference `_dispatch` (`none` once
cleared, matching `undefined`), and the Light-DOM fragment reference. -/
structure Inst where
  _state : JSObj
  _dispatch : Option Unit := some ()
  _fragment : Option Unit := none
deriving DecidableEq, Repr

/-- What the native dispatch primitive does to the element-visible parts of
an instance when it is invoked through `dispatchAction`.  The internal
runtime is an external collaborator, so the lifecycle theorems are proved
for an arbitrary `run`. -/
abbrev NativeRun : Type :=
  Inst → Option SetterF → Option JSObj → Inst

/-- The `dispatchAction(action, props)` method: `this._dispatch(action,
props)`.  When `_dispatch` has been cleared it is `undefined` and the call
throws a `TypeError` before anything else happens; otherwise the native
dispatch runs. -/
def dispatchAction (run : NativeRun) (inst : Inst) (action : Option SetterF)
    (props : Option JSObj) : Except JsError Inst :=
  match inst._dispatch with
  | none => .error .typeError
  | some _ => .ok (run inst action props)

/-- The `setProperty(propName, value)` method: looks the descriptor up in
`exposedProps` (a `TypeError` if absent, from `cfg.setter` on `undefined`)
and dispatches its setter with payload `\x7b [propName]: value \x7d`. -/
def setProperty (run : NativeRun) (exposedProps : MapS Config) (inst : Inst)
    (propName : String) (value : JSVal) : Except JsError Inst :=
  match mapGet exposedProps propName with
  | none => .error .typeError
  | some cfg => dispatchAction run inst cfg.setter (some [(propName, value)])

/-- An exposed-method call installed by `addMethods`:
`this.dispatchAction(exposedMethods[name])`, with no props. -/
def callExposedMethod (run : NativeRun) (inst : Inst) (action : SetterF) :
    Except JsError Inst :=
  dispatchAction run inst (some action) none

/-- The `attributeChangedCallback` method acting on a live instance: an early
return leaves the instance untouched; otherwise the resolved setter is
dispatched with the converted payload. -/
def attributeChangedCallbackOn (run : NativeRun) (exposedAttrs : MapS Config)
    (inst : Inst) (attrName : String) (oldVal newVal : Option String) :
    Except JsError Inst :=
  if oldVal = newVal then .ok inst
  else
    match mapGet exposedAttrs (jsToLowerCase attrName) with
    | none => .error .typeError
    | some cfg =>
        dispatchAction run inst cfg.setter
          (some [((jsOrStrs cfg.propName cfg.attrName).getD "undefined",
                  accValue attrName oldVal newVal)])

/-- The `disconnectedCallback` method: calls `this._dispatch()` to halt the
app (a `TypeError` when the reference is already cleared; the halt itself
only affects the out-of-scope runtime), then clears `_dispatch` and
`_fragment`. -/
def disconnectedCallback (inst : Inst) : Except JsError Inst :=
  match inst._dispatch with
  | none => .error .typeError
  | some _ => .ok { inst with _dispatch := none, _fragment := none }

/-- The instance an operation leaves behind: the returned one on success, the
unchanged receiver when the operation threw (every throwing site of the
modelled methods throws before any instance field is written). -/
def afterOp (inst : Inst) (r : Except JsError Inst) : Inst :=
  match r with
  | .ok i => i
  | .error _ => inst

/-- Analysis view of `syncAttribute`: the single write it performs on the
attribute table, if any.  `some (some s)` sets the attribute to `s`,
`some none` removes it, `none` touches nothing (event-handler
descriptors). -/
def attrWriteVal (cfg : Config) (value : JSVal) : Option (Option String) :=
  if jsTruthyStr cfg.eventType then none
  else some (match value with
    | .bool b => if b then some "" else none
    | v => if isEmptyish v then none else some (jsToString v))

/-- Applies an optional attribute write to one slot of the table. -/
def applyWrite (m : AttrMap) (a : String) : Option (Option String) → AttrMap
  | none => m
  | some w => fun x => if x = a then w else m x

/-- Analysis view of one `syncAttributes` loop iteration: the attribute it
writes and the value written, if any. -/
def keyWrite (exposedProps : MapS Config) (state : JSObj) (name : String) :
    Option (String × Option String) :=
  match mapGet exposedProps name with
  | some cfg =>
      if jsTruthyStr cfg.attrName then
        match attrWriteVal cfg (jsGet state name) with
        | some w => some (cfg.attrName.getD "undefined", w)
        | none => none
      else none
  | none => none

/-- The last write a key list performs on the attribute `x` during one
`syncAttributes` pass, if any (later loop iterations win). -/
def lastWrite (exposedProps : MapS Config) (state : JSObj) :
    List String → String → Option (Option String)
  | [], _ => none
  | name :: names, x =>
      match lastWrite exposedProps state names x with
      | some w => some w
      | none =>
          match keyWrite exposedProps state name with
          | some (a, w) => if a = x then some w else none
          | none => none

/-! Helper lemmas shared by the claim theorems. -/

/-- Looking a key up in a concatenation of objects finds the left binding
first. -/
theorem lookupObj_append (p s : JSObj) (k : String) :
    lookupObj (p ++ s) k = (lookupObj p k).or (lookupObj s k) := by
  unfold lookupObj
  rw [List.find?_append]
  cases List.find? (fun kv => decide (kv.1 = k)) p <;> simp

/-- Assigning a default setter does not change the property name. -/
theorem assignSetter_propName (cfg : Config) :
    (assignSetter cfg).propName = cfg.propName := by
  unfold assignSetter; split <;> rfl

/-- Assigning a default setter does not change the attribute name. -/
theorem assignSetter_attrName (cfg : Config) :
    (assignSetter cfg).attrName = cfg.attrName := by
  unfold assignSetter; split <;> rfl

/-- Characterisation of `syncAttribute` as the application of its single
optional write. -/
theorem syncAttribute_eq_applyWrite (cfg : Config) (v : JSVal) (m : AttrMap) :
    syncAttribute cfg v m =
      applyWrite m (cfg.attrName.getD "undefined") (attrWriteVal cfg v) := by
  unfold syncAttribute attrWriteVal
  by_cases he : jsTruthyStr cfg.eventType = true
  · rw [if_pos he, if_pos he]; rfl
  · rw [if_neg he, if_neg he]
    cases v with
    | bool b => cases b <;> rfl
    | str s =>
        dsimp only
        by_cases hs : isEmptyish (.str s) = true
        · rw [if_pos hs, if_pos hs]; rfl
        · rw [if_neg hs, if_neg hs]; rfl
    | undefined => rfl
    | null => rfl
    | num n => rfl
    | fn f => rfl
    | arr xs => rfl

/-- Characterisation of one `syncAttributes` iteration as the application of
its optional keyed write. -/
theorem syncAttributesStep_eq (props : MapS Config) (state : JSObj)
    (m : AttrMap) (name : String) :
    syncAttributesStep props state m name =
      match keyWrite props state name with
      | some (a, w) => applyWrite m a (some w)
      | none => m := by
  unfold syncAttributesStep keyWrite
  cases hg : mapGet props name with
  | none => rfl
  | some cfg =>
      dsimp only
      by_cases ha : jsTruthyStr cfg.attrName = true
      · rw [if_pos ha, if_pos ha, syncAttribute_eq_applyWrite]
        cases hw : attrWriteVal cfg (jsGet state name) with
        | none => rfl
        | some w => rfl
      · rw [if_neg ha, if_neg ha]

/-- Unfolding equation of `lastWrite` on a cons cell. -/
theorem lastWrite_cons (props : MapS Config) (state : JSObj)
    (name : String) (names : List String) (x : String) :
    lastWrite props state (name :: names) x =
      match lastWrite props state names x with
      | some w => some w
      | none =>
          match keyWrite props state name with
          | some (a, w) => if a = x then some w else none
          | none => none := rfl

/-- Pointwise value of a `syncAttributes` pass: the last write the key list
performs on the attribute, or the prior value when untouched. -/
theorem syncFold_apply (props : MapS Config) (state : JSObj) :
    ∀ (names : List String) (m : AttrMap) (x : String),
      List.foldl (syncAttributesStep props state) m names x =
        match lastWrite props state names x with
        | some w => w
        | none => m x := by
  intro names
  induction names with
  | nil => intro m x; rfl
  | cons name names ih =>
      intro m x
      rw [List.foldl_cons, ih, lastWrite_cons]
      cases hl : lastWrite props state names x with
      | some w => rfl
      | none =>
          rw [syncAttributesStep_eq]
          cases hk : keyWrite props state name with
          | none => rfl
          | some aw =>
              obtain ⟨a, w⟩ := aw
              dsimp only
              show (if x = a then w else m x) = _
              by_cases hax : a = x
              · subst hax; rw [if_pos rfl, if_pos rfl]
              · rw [if_neg (fun hxa => hax hxa.symm), if_neg hax]

/-- Folding the descriptor loop over a filtered descriptor list: descriptors
with neither a truthy `propName` nor a truthy `attrName` leave the
accumulated maps unchanged. -/
theorem generateMaps_aux (defs : List Config) :
    ∀ acc : MapS Config × MapS Config,
      List.foldl generateMapsStep acc defs =
        List.foldl generateMapsStep acc (List.filter (fun cfg =>
          jsTruthyStr cfg.propName || jsTruthyStr cfg.attrName) defs) := by
  induction defs with
  | nil => intro acc; rfl
  | cons cfg defs ih =>
      intro acc
      simp only [List.filter_cons]
      by_cases h : (jsTruthyStr cfg.propName || jsTruthyStr cfg.attrName) = true
      · rw [if_pos h, List.foldl_cons, List.foldl_cons, ih]
      · have hp : jsTruthyStr cfg.propName = false := by
          cases hx : jsTruthyStr cfg.propName <;> simp_all
        have ha : jsTruthyStr cfg.attrName = false := by
          cases hx : jsTruthyStr cfg.attrName <;> simp_all
        have hstep : generateMapsStep acc cfg = acc := by
          unfold generateMapsStep
          dsimp only
          rw [assignSetter_propName, assignSetter_attrName, hp, ha]
          rfl
        rw [if_neg h, List.foldl_cons, hstep, ih]

/-- The boolean-attribute condition of `attributeChangedCallback`, stated as
membership of the `(old, new)` pair in the four flagged pairs. -/
theorem isBoolAttrChange_iff (a : String) (o n : Option String) :
    isBoolAttrChange a o n = true ↔
      (o, n) ∈ [((none : Option String), some ""),
        (some "", (none : Option String)), (some a, none), (none, some a)] := by
  simp [isBoolAttrChange, Prod.ext_iff]
  tauto

/-! Claim theorems. -/

/-- C1 (amended): the wrapped dispatch `newDispatch` captures the snapshot
before forwarding and invokes `syncAttributes` exactly once after
forwarding, for every state-bearing shape whose yielded state value is not
`undefined`: a bare non-`undefined` state, or an array whose first element
is neither a function nor `undefined` (with well-formed effect tuples).
For shapes that carry no state — a function, an array whose first element is
a function — and for the `undefined`-yield shapes (a bare `undefined`, an
empty array, or an array with `undefined` head), the snapshot is not written
and `syncAttributes` is not invoked. -/
theorem claim_C1 (action props : JSVal) :
    (∀ f, action = .fn f →
        newDispatch action props =
          .ok [DEvent.forward (.fn (bindToThis f)) props]) ∧
    (∀ f rest, action = .arr (.cons (.fn f) rest) →
        newDispatch action props =
          .ok [DEvent.forward (.arr (.cons (.fn (bindToThis f)) rest)) props]) ∧
    (∀ hd rest rest', action = .arr (.cons hd rest) → hd.isFn = false →
        hd.isUndefined = false → bindEffectTuples rest = .ok rest' →
        newDispatch action props =
          .ok [DEvent.setSnapshot hd,
            DEvent.forward (.arr (.cons hd rest')) props, DEvent.syncAttrs]) ∧
    (∀ rest rest', action = .arr (.cons .undefined rest) →
        bindEffectTuples rest = .ok rest' →
        newDispatch action props =
          .ok [DEvent.forward (.arr (.cons .undefined rest')) props]) ∧
    (action = .arr .nil →
        newDispatch action props = .ok [DEvent.forward (.arr .nil) props]) ∧
    (action.isFn = false → (∀ xs, action ≠ .arr xs) → action ≠ .undefined →
        newDispatch action props =
          .ok [DEvent.setSnapshot action, DEvent.forward action props,
            DEvent.syncAttrs]) ∧
    (action = .undefined →
        newDispatch action props = .ok [DEvent.forward .undefined props]) := by
  refine ⟨?_, ?_, ?_, ?_, ?_, ?_, ?_⟩
  · intro f hf; subst hf; rfl
  · intro f rest hf; subst hf; rfl
  · intro hd rest rest' hact hfn hund hbind
    subst hact
    cases hd <;> simp_all [newDispatch, classifyAndBind, JSVal.isFn,
      JSVal.isUndefined, Except.bind, bind]
  · intro rest rest' hact hbind
    subst hact
    simp_all [newDispatch, classifyAndBind, JSVal.isUndefined, Except.bind, bind]
  · intro hact; subst hact; rfl
  · intro hfn harr hund
    cases action <;> simp_all [newDispatch, classifyAndBind, JSVal.isFn,
      JSVal.isUndefined, Except.bind, bind]
  · intro hact; subst hact; rfl

/-- C1 witness: a bare numeric state is captured before forwarding, and the
attributes are synced exactly once after forwarding. -/
theorem claim_C1_witness :
    newDispatch (JSVal.num 5) JSVal.undefined =
      Except.ok [DEvent.setSnapshot (JSVal.num 5),
        DEvent.forward (JSVal.num 5) JSVal.undefined, DEvent.syncAttrs] :=
  (claim_C1 (JSVal.num 5) JSVal.undefined).2.2.2.2.2.1 rfl
    (fun _ h => JSVal.noConfusion h) (fun h => JSVal.noConfusion h)

/-- C1 counterexample: dispatching the bare state value `undefined` — a
state-bearing shape by the claim's own classification — neither writes the
snapshot nor invokes `syncAttributes`; the trace holds only the forwarding
call. -/
theorem claim_C1_counterexample :
    newDispatch JSVal.undefined JSVal.null =
      Except.ok [DEvent.forward JSVal.undefined JSVal.null] ∧
    List.contains [DEvent.forward JSVal.undefined JSVal.null] DEvent.syncAttrs
      = false ∧
    List.contains [DEvent.forward JSVal.undefined JSVal.null]
      (DEvent.setSnapshot JSVal.undefined) = false :=
  ⟨rfl, by decide, by decide⟩

/-- C2: for a descriptor with an `attrName` and no `eventType`, outward sync
sets the attribute to the empty string on boolean `true`, removes it on
boolean `false`, removes it on `undefined`, `null` and the empty string, and
otherwise sets it to the value's string form. -/
theorem claim_C2 (cfg : Config) (a : String) (m : AttrMap)
    (hattr : cfg.attrName = some a) (hev : cfg.eventType = none) :
    syncAttribute cfg (.bool true) m = setAttr m a "" ∧
    syncAttribute cfg (.bool false) m = removeAttr m a ∧
    syncAttribute cfg .undefined m = removeAttr m a ∧
    syncAttribute cfg .null m = removeAttr m a ∧
    syncAttribute cfg (.str "") m = removeAttr m a ∧
    (∀ v : JSVal, v.isBool = false → isEmptyish v = false →
        syncAttribute cfg v m = setAttr m a (jsToString v)) := by
  refine ⟨?_, ?_, ?_, ?_, ?_, ?_⟩
  · simp [syncAttribute, hattr, hev, jsTruthyStr, setAttr]
  · simp [syncAttribute, hattr, hev, jsTruthyStr, removeAttr]
  · simp [syncAttribute, hattr, hev, jsTruthyStr, isEmptyish, removeAttr]
  · simp [syncAttribute, hattr, hev, jsTruthyStr, isEmptyish, removeAttr]
  · simp [syncAttribute, hattr, hev, jsTruthyStr, isEmptyish, removeAttr]
  · intro v hb he
    cases v <;> simp_all [syncAttribute, jsTruthyStr, isEmptyish, JSVal.isBool]

/-- C2 witness: a numeric field value is reflected as its decimal string. -/
theorem claim_C2_witness :
    syncAttribute { attrName := some "count-x" } (.num 7) (fun _ => none) =
      setAttr (fun _ => none) "count-x" (jsToString (JSVal.num 7)) :=
  (claim_C2 { attrName := some "count-x" } "count-x" (fun _ => none) rfl
    rfl).2.2.2.2.2 (.num 7) rfl rfl

/-- C3: an observed-attribute change with equal old and new values is a
no-op; otherwise the descriptor found under the lowercased attribute name
has its setter dispatched with the field name resolved as
`propName || attrName` and the new value converted to a boolean (true on
addition) exactly on the four flagged `(old, new)` pairs, and passed through
raw in every other case. -/
theorem claim_C3 (exposedAttrs : MapS Config) (attrName : String)
    (oldVal newVal : Option String) :
    (oldVal = newVal →
        attributeChangedCallback exposedAttrs attrName oldVal newVal =
          .noop) ∧
    (∀ cfg, oldVal ≠ newVal →
        mapGet exposedAttrs (jsToLowerCase attrName) = some cfg →
        attributeChangedCallback exposedAttrs attrName oldVal newVal =
          .dispatched cfg.setter
            ((jsOrStrs cfg.propName cfg.attrName).getD "undefined")
            (if (oldVal, newVal) ∈ [((none : Option String), some ""),
                  (some "", (none : Option String)), (some attrName, none),
                  (none, some attrName)]
             then JSVal.bool (newVal ≠ none) else rawAttrVal newVal)) := by
  constructor
  · intro h; simp [attributeChangedCallback, h]
  · intro cfg hne hc
    simp only [attributeChangedCallback, if_neg hne, hc, accValue]
    by_cases hb : isBoolAttrChange attrName oldVal newVal = true
    · rw [if_pos hb, if_pos ((isBoolAttrChange_iff attrName oldVal newVal).mp hb)]
    · rw [if_neg hb, if_neg (fun hmem =>
        hb ((isBoolAttrChange_iff attrName oldVal newVal).mpr hmem))]

/-- C3 witness: adding the attribute (`null` to empty string) dispatches the
descriptor's setter with the field name from `propName` and the boolean
`true`. -/
theorem claim_C3_witness :
    attributeChangedCallback
      [("foo", { attrName := some "foo", propName := some "bar",
                 setter := some SetterF.patchState })] "foo" none (some "") =
      ACCResult.dispatched (some SetterF.patchState) "bar"
        (JSVal.bool true) := by
  have h := (claim_C3
    [("foo", { attrName := some "foo", propName := some "bar",
               setter := some SetterF.patchState })] "foo" none (some "")).2
    { attrName := some "foo", propName := some "bar",
      setter := some SetterF.patchState }
    (by decide) (by rfl)
  simpa using h

/-- C4: outward sync never touches the attribute table for a descriptor with
a (truthy) `eventType`, whatever the field's value. -/
theorem claim_C4 (cfg : Config) (v : JSVal) (m : AttrMap)
    (h : jsTruthyStr cfg.eventType = true) :
    syncAttribute cfg v m = m := by
  simp [syncAttribute, h]

/-- C4 witness: an event-handler descriptor leaves an empty attribute table
untouched even for a boolean `true` value. -/
theorem claim_C4_witness :
    syncAttribute { attrName := some "onfoo", eventType := some "Foo" }
      (.bool true) (fun _ => none) = (fun _ => none) :=
  claim_C4 { attrName := some "onfoo", eventType := some "Foo" }
    (.bool true) (fun _ => none) rfl

/-- C5 (amended): a descriptor with neither a truthy `attrName` nor a truthy
`propName` does not make class generation fail; `generateMaps` is total and
silently skips it, producing exactly the lookup tables of the descriptor
list with such entries filtered out. -/
theorem claim_C5 (exposedConfig : List Config) :
    generateMaps exposedConfig =
      generateMaps (List.filter (fun cfg =>
        jsTruthyStr cfg.propName || jsTruthyStr cfg.attrName)
        exposedConfig) :=
  generateMaps_aux exposedConfig ([], [])

/-- C5 counterexample: generating a class over a single descriptor with
neither `attrName` nor `propName` succeeds and yields empty lookup tables —
no configuration error is raised at definition time. -/
theorem claim_C5_counterexample :
    generateMaps [({} : Config)] = ([], []) := rfl

/-- C6: a descriptor lacking a setter and lacking an `eventType` is assigned
the `PatchState` default, and `PatchState` is the shallow merge: every key
of the payload reads back with the payload's value, and every other key
reads back with the state's value. -/
theorem claim_C6 (cfg : Config) (hs : cfg.setter = none)
    (he : cfg.eventType = none) :
    (assignSetter cfg).setter = some SetterF.patchState ∧
    (∀ (state props : JSObj) (k : String) (v : JSVal),
        lookupObj props k = some v →
        lookupObj (PatchState state props) k = some v) ∧
    (∀ (state props : JSObj) (k : String),
        lookupObj props k = none →
        lookupObj (PatchState state props) k = lookupObj state k) := by
  refine ⟨?_, ?_, ?_⟩
  · simp [assignSetter, hs, he, jsTruthyStr]
  · intro state props k v h
    unfold PatchState
    rw [lookupObj_append, h]; rfl
  · intro state props k h
    unfold PatchState
    rw [lookupObj_append, h]
    cases lookupObj state k <;> rfl

/-- C6 witness: the default setter is `PatchState`, and merging the payload
`\x7b x: 2 \x7d` into the state `\x7b a: 1 \x7d` reads back `2` under `x`
and `1` under `a`. -/
theorem claim_C6_witness :
    (assignSetter { propName := some "x" }).setter =
      some SetterF.patchState ∧
    lookupObj (PatchState [("a", JSVal.num 1)] [("x", JSVal.num 2)]) "x" =
      some (JSVal.num 2) ∧
    lookupObj (PatchState [("a", JSVal.num 1)] [("x", JSVal.num 2)]) "a" =
      some (JSVal.num 1) :=
  ⟨(claim_C6 { propName := some "x" } rfl rfl).1,
   (claim_C6 { propName := some "x" } rfl rfl).2.1
     [("a", JSVal.num 1)] [("x", JSVal.num 2)] "x" (JSVal.num 2) rfl,
   (claim_C6 { propName := some "x" } rfl rfl).2.2
     [("a", JSVal.num 1)] [("x", JSVal.num 2)] "a" rfl⟩

/-- C7: writing callable `A` and then callable `B` to an event-handler field
(starting from no registered listener) leaves exactly one active listener
for the descriptor's event type, namely `B`: the generated setter passes the
previous handler as `oldVal` and the new one as `newVal`, and the
listener-sync effect removes `oldVal` before adding `newVal`. -/
theorem claim_C7 (propName attrName eventType : Option String)
    (nm t : String) (A B : Fn) (state0 : JSObj)
    (hnm : jsOrStrs propName attrName = some nm)
    (het : eventType = some t) :
    (writeOnEventHandler propName attrName eventType state0 [] (.fn A)).2 =
      [(t, .fn A)] ∧
    (writeOnEventHandler propName attrName eventType
        (writeOnEventHandler propName attrName eventType state0 [] (.fn A)).1
        (writeOnEventHandler propName attrName eventType state0 [] (.fn A)).2
        (.fn B)).2 = [(t, .fn B)] := by
  constructor
  · simp [writeOnEventHandler, SetOnEventHandler, hnm, het, jsGet, lookupObj,
      setOnEventListenerEffectRunner, removeEventListener, addEventListener,
      jsTruthy, JSVal.isFn, compileHandler]
  · simp [writeOnEventHandler, SetOnEventHandler, hnm, het, jsGet, lookupObj,
      setOnEventListenerEffectRunner, removeEventListener, addEventListener,
      jsTruthy, JSVal.isFn, compileHandler]

/-- C7 witness: two successive handler writes on an `onfoo`/`Foo` descriptor
leave exactly the second handler registered for `Foo`. -/
theorem claim_C7_witness :
    (writeOnEventHandler (some "onfoo") none (some "Foo")
        (writeOnEventHandler (some "onfoo") none (some "Foo") [] []
          (.fn { code := .native 1 })).1
        (writeOnEventHandler (some "onfoo") none (some "Foo") [] []
          (.fn { code := .native 1 })).2
        (.fn { code := .native 2 })).2 =
      [("Foo", JSVal.fn { code := FnCode.native 2 })] :=
  (claim_C7 (some "onfoo") none (some "Foo") "onfoo" "Foo"
    { code := .native 1 } { code := .native 2 } [] rfl rfl).2

/-- C8: one `syncAttributes` pass is idempotent — running it a second time
over the same state snapshot mutates no attribute, whatever the starting
attribute table. -/
theorem claim_C8 (exposedProps : MapS Config) (state : JSObj) (m : AttrMap) :
    syncAttributes exposedProps state (syncAttributes exposedProps state m)
      = syncAttributes exposedProps state m := by
  funext x
  unfold syncAttributes
  rw [syncFold_apply]
  cases hl : lastWrite exposedProps state (objKeys state) x with
  | none => rfl
  | some w => rw [syncFold_apply, hl]

/-- C9: `bindToThis` propagates a present `$isWrapped` marker to the rebound
function, and the dispatch interceptor forwards exactly the `bindToThis`
rebinding for direct action calls and for effect tuples. -/
theorem claim_C9 (f : Fn) (hw : f.isWrapped = true) :
    (bindToThis f).isWrapped = true ∧
    (∀ props, newDispatch (.fn f) props =
        .ok [DEvent.forward (.fn (bindToThis f)) props]) ∧
    (∀ rest, bindEffectTuple (.arr (.cons (.fn f) rest)) =
        .ok (.arr (.cons (.fn (bindToThis f)) rest))) :=
  ⟨by simp [bindToThis, hw], fun props => rfl, fun rest => rfl⟩

/-- C9 witness: rebinding a marked function yields a marked bound
function. -/
theorem claim_C9_witness :
    (bindToThis { code := FnCode.native 0, isWrapped := true }).isWrapped
        = true ∧
    newDispatch (.fn { code := FnCode.native 0, isWrapped := true })
        JSVal.undefined =
      Except.ok [DEvent.forward
        (.fn (bindToThis { code := FnCode.native 0, isWrapped := true }))
        JSVal.undefined] :=
  ⟨(claim_C9 { code := FnCode.native 0, isWrapped := true } rfl).1,
   (claim_C9 { code := FnCode.native 0, isWrapped := true } rfl).2.1
     JSVal.undefined⟩

/-- C10: once `disconnectedCallback` has cleared `_dispatch`, a property
set, an exposed-method call, and an observed-attribute change with
`oldVal !== newVal` all throw a `TypeError` (they call the cleared dispatch
reference), leaving the instance — in particular its state snapshot —
unchanged; and `disconnectedCallback` on a connected instance does reach
that cleared state while preserving `_state`. -/
theorem claim_C10 (run : NativeRun) (exposedProps exposedAttrs : MapS Config)
    (inst : Inst) (hd : inst._dispatch = none)
    (pn : String) (v : JSVal) (cfg : Config)
    (hp : mapGet exposedProps pn = some cfg) (act : SetterF) (an : String)
    (ov nv : Option String) (hne : ov ≠ nv) (cfg' : Config)
    (ha : mapGet exposedAttrs (jsToLowerCase an) = some cfg') :
    (setProperty run exposedProps inst pn v = .error .typeError ∧
      afterOp inst (setProperty run exposedProps inst pn v) = inst) ∧
    (callExposedMethod run inst act = .error .typeError ∧
      afterOp inst (callExposedMethod run inst act) = inst) ∧
    (attributeChangedCallbackOn run exposedAttrs inst an ov nv =
        .error .typeError ∧
      afterOp inst (attributeChangedCallbackOn run exposedAttrs inst an ov nv)
        = inst) ∧
    (∀ i : Inst, i._dispatch.isSome →
        disconnectedCallback i =
          .ok { i with _dispatch := none, _fragment := none }) := by
  have hset : setProperty run exposedProps inst pn v = .error .typeError := by
    simp [setProperty, hp, dispatchAction, hd]
  have hmeth : callExposedMethod run inst act = .error .typeError := by
    simp [callExposedMethod, dispatchAction, hd]
  have hacc : attributeChangedCallbackOn run exposedAttrs inst an ov nv =
      .error .typeError := by
    simp [attributeChangedCallbackOn, hne, ha, dispatchAction, hd]
  refine ⟨⟨hset, ?_⟩, ⟨hmeth, ?_⟩, ⟨hacc, ?_⟩, ?_⟩
  · rw [hset]; rfl
  · rw [hmeth]; rfl
  · rw [hacc]; rfl
  · intro i hi
    cases hdis : i._dispatch with
    | none => rw [hdis] at hi; cases hi
    | some u => simp [disconnectedCallback, hdis]

/-- C10 witness: on a concrete disconnected instance, a property set, a
method call, and an attribute change all throw and leave the instance
unchanged. -/
theorem claim_C10_witness :
    (setProperty (fun i _ _ => i)
        [("p", { propName := some "p", setter := some SetterF.patchState })]
        { _state := [("p", JSVal.num 1)], _dispatch := none } "p"
        (JSVal.num 2) = .error .typeError) ∧
    (callExposedMethod (fun i _ _ => i)
        { _state := [("p", JSVal.num 1)], _dispatch := none }
        SetterF.patchState = .error .typeError) ∧
    (attributeChangedCallbackOn (fun i _ _ => i)
        [("a", { attrName := some "a", setter := some SetterF.patchState })]
        { _state := [("p", JSVal.num 1)], _dispatch := none } "a" none
        (some "") = .error .typeError) := by
  have h := claim_C10 (fun i _ _ => i)
    [("p", { propName := some "p", setter := some SetterF.patchState })]
    [("a", { attrName := some "a", setter := some SetterF.patchState })]
    { _state := [("p", JSVal.num 1)], _dispatch := none } rfl "p"
    (JSVal.num 2)
    { propName := some "p", setter := some SetterF.patchState } rfl
    SetterF.patchState "a" none (some "") (by decide)
    { attrName := some "a", setter := some SetterF.patchState } rfl
  exact ⟨h.1.1, h.2.1.1, h.2.2.1.1⟩

end HyperappCE
